import Mathlib

/-!
Shallow embedding of `src/python/webscraping/scrape_domain_names.py`.

The script is a single-threaded scraper: a driver draws random proxies from a
pool, verifies each one against an IP-echo endpoint, and runs a crawl engine
that fetches listing pages, detects and solves reCAPTCHA challenges through the
Anti-Captcha oracle, extracts domain records and decides pagination.

Modelling conventions:
- HTTP and oracle traffic is an input to the model: a world supplies, for each
  underlying `requests` call, either a raised exception (`Except.error`) or a
  `Response` value (status, body text, parsed view of the body, cookies set).
- BeautifulSoup queries and the `re.search` on the recaptcha script are treated
  as the parse capability of a page: a `ParsedPage` carries the outcome of each
  of the queries the script performs on the HTML text.
- Python exceptions are `PyErr`; functions that can raise return `Except`.
- Python dicts are association lists preserving insertion order; Python sets
  are duplicate-free lists (membership is what the claims depend on).
- Loops that may not terminate (`while not solution and times_waited < 3` never
  increments `times_waited`) take a fuel argument; exhausting the fuel yields
  `none`, read as "the loop is still running after that many iterations".
-/

/-- Python exception values that the script can raise. -/
inductive PyErr where
  | keyError (k : String)
  | attributeError
  | valueError
  | requestException
deriving DecidableEq, Repr

/-- A cookie jar / dict: association list, insertion order preserved. -/
abbrev Jar := List (String × String)

/-- `d[k] = v` on a Python dict: overwrite in place, or append a new key. -/
def dictSet (jar : Jar) (k v : String) : Jar :=
  if jar.any (fun kv => kv.fst = k) then
    jar.map (fun kv => if kv.fst = k then (k, v) else kv)
  else jar ++ [(k, v)]

/-- `d.update(new)`: last-write-wins on key collision, new keys appended. -/
def dictUpdate (jar upd : Jar) : Jar :=
  upd.foldl (fun j kv => dictSet j kv.fst kv.snd) jar

/-- `k in d.keys()`. -/
def jarHasKey (jar : Jar) (k : String) : Bool :=
  jar.any (fun kv => kv.fst = k)

/-- Is `needle` a contiguous sublist of the haystack (Python `in` on str)? -/
def subListOf (needle : List Char) : List Char → Bool
  | [] => needle.isEmpty
  | c :: rest => needle.isPrefixOf (c :: rest) || subListOf needle rest

/-- Python `needle in hay` for strings. -/
def strIn (needle hay : String) : Bool :=
  subListOf needle.data hay.data

/-- Python `str.lower()` restricted to ASCII (all markers here are ASCII). -/
def asciiLower (s : String) : String :=
  String.mk (s.data.map Char.toLower)

/-- Strip leading and trailing whitespace from a char list. -/
def stripChars (cs : List Char) : List Char :=
  ((cs.dropWhile Char.isWhitespace).reverse.dropWhile Char.isWhitespace).reverse

/-- Python `str.strip()` (whitespace on both ends). -/
def pyStrip (s : String) : String :=
  String.mk (stripChars s.data)

/-- Digits of a decimal numeral to a Nat. -/
def digitsToNat (cs : List Char) : Nat :=
  cs.foldl (fun n c => n * 10 + (c.toNat - 48)) 0

/-- Python `int(s)`: optional surrounding whitespace, optional sign, digits;
anything else raises `ValueError`. (Underscore digit grouping is not modelled;
no input in this development contains one.) -/
def pyInt (s : String) : Except PyErr Int :=
  match stripChars s.data with
  | [] => .error .valueError
  | c :: rest =>
    let ds := if c = '-' ∨ c = '+' then rest else c :: rest
    if ds ≠ [] ∧ ds.all Char.isDigit then
      if c = '-' then .ok (-(digitsToNat ds : Int)) else .ok (digitsToNat ds)
    else .error .valueError

/-- Python falsiness of an optional string (`None` and `""` are falsy). -/
def pyFalsyStr : Option String → Bool
  | none => true
  | some s => s = ""

/-- Python falsiness of an optional int (`None` and `0` are falsy). -/
def pyFalsyIntOpt : Option Int → Bool
  | none => true
  | some n => n = 0

/-- Outcome of the BeautifulSoup / regex queries the script runs on one page of
HTML text (the parse capability of §4.4 of the design). -/
structure ParsedPage where
  /-- `find('table', id='sites_tbl')`: texts of the `td.row_name` cells,
  in document order, when the table is present. -/
  table : Option (List String)
  /-- Text of the element with class `sites_tbl_end`, when found. -/
  sitesTblEnd : Option String
  /-- Text of that element's `find_next_sibling('b')`, when found. -/
  totResults : Option String
  /-- `re.search(RECAPTCHA_REGEX, html)`: captured (site key, action). -/
  recaptchaParams : Option (String × String)
  /-- `find('input', name='captcha_token')`: `none` when the input element is
  absent; `some v` when present, `v` being its optional `value` attribute. -/
  captchaTokenInput : Option (Option String)
deriving DecidableEq, Repr

/-- An HTTP response as the script observes it. -/
structure Response where
  status : Nat
  text : String
  url : String
  /-- Cookies the response sets (`res.cookies.get_dict()`). -/
  setCookies : List (String × String)
  /-- BeautifulSoup view of `text`. -/
  page : ParsedPage
deriving DecidableEq, Repr

/-- `MAX_REQUESTS_PER_IP` (line 70). -/
def MAX_REQUESTS_PER_IP : Nat := 20

/-- `START_PAGE` (line 57). -/
def START_PAGE : Nat := 1

/-- `Fetcher.__init__`: `self.cookies = cookies or {}` — a fresh empty dict
when `None` (or an empty, hence falsy, dict) is passed. Both constructions in
the script (`proxy_is_working` line 201, the engine line 431) pass no cookies,
so every Fetcher starts with its own empty jar. -/
def fetcher_init (cookies : Option Jar) : Jar :=
  match cookies with
  | none => []
  | some c => if c.isEmpty then [] else c

/-- `Fetcher._request` (lines 116-152): the underlying `requests` call either
raises (caught: returns `None`, jar untouched) or yields a response; on status
200 the jar is updated with the response's cookies and the response returned;
any other status raises inside the `try` (caught: returns `None`, jar
untouched). -/
def fetcher_request (raw : Except PyErr Response) (jar : Jar) :
    Option Response × Jar :=
  match raw with
  | .error _ => (none, jar)
  | .ok res =>
    if res.status = 200 then (some res, dictUpdate jar res.setCookies)
    else (none, jar)

/-- `proxy_is_working` (lines 199-220): fresh Fetcher, GET the IP-echo URL.
Response received and its text occurs in the proxy string ⇒ append to the good
list, return true. Response received but text not in the proxy string ⇒ return
false without touching either list. No response ⇒ append to the bad list,
return false. -/
def proxy_is_working (raw : Except PyErr Response) (proxy : String)
    (good bad : List String) : Bool × List String × List String :=
  match (fetcher_request raw (fetcher_init none)).fst with
  | some res =>
    if strIn res.text proxy then (true, good ++ [proxy], bad)
    else (false, good, bad)
  | none => (false, good, bad ++ [proxy])

/-- One call to the Anti-Captcha service: the raw `requests.post` either raises
(`Except.error`, NOT caught by the script) or returns a status together with
the outcome of `res.json()` (which itself may raise on a non-JSON body). -/
structure OracleCall (α : Type) where
  raw : Except PyErr (Nat × Except PyErr α)

/-- The oracle-side world one `solve_recaptcha` invocation sees. -/
structure OracleWorld where
  /-- Outcome of the `createTask` POST; payload: the optional `taskId` field. -/
  createResp : Except PyErr (Nat × Except PyErr (Option Int))
  /-- Outcome of the k-th `getTaskResult` POST; payload: `some token` when
  `json['solution']['gRecaptchaResponse']` is present, `none` when the lookup
  raises `KeyError` (which the script catches). -/
  pollResp : Nat → Except PyErr (Nat × Except PyErr (Option String))

/-- `_create_anti_captcha_task` (lines 237-266): the POST is not inside any
`try`, so a transport error propagates; non-200 returns `None`; `res.json()`
may raise (propagates); otherwise `data.get('taskId')`. -/
def create_anti_captcha_task (w : OracleWorld) : Except PyErr (Option Int) :=
  match w.createResp with
  | .error e => .error e
  | .ok (status, body) =>
    if status ≠ 200 then .ok none
    else
      match body with
      | .error e => .error e
      | .ok tid => .ok tid

/-- `_get_anti_captcha_solution` (lines 269-301): the POST is not inside any
`try` (transport errors propagate); non-200 returns `None`; `res.json()`
raising a JSON decode error propagates (only `KeyError` is caught); a caught
`KeyError` on the `solution` lookup returns `None`. -/
def get_anti_captcha_solution (w : OracleWorld) (k : Nat) :
    Except PyErr (Option String) :=
  match w.pollResp k with
  | .error e => .error e
  | .ok (status, body) =>
    if status ≠ 200 then .ok none
    else
      match body with
      | .error e => .error e
      | .ok sol => .ok sol

/-- The polling loop of `solve_recaptcha` (lines 327-331):

    solution = None
    times_waited = 0
    while not solution and times_waited < 3:
        time.sleep(6)
        solution = _get_anti_captcha_solution(task_id)

`times_waited` is never incremented anywhere, so the `times_waited < 3` bound
never binds: the loop runs until a truthy solution arrives, or forever.
`fuel` bounds the number of iterations we unfold; `none` means the loop is
still running after `fuel` iterations. A poll that raises propagates. -/
def solve_poll_loop (w : OracleWorld) :
    Nat → Nat → Nat → Option String → Option (Except PyErr (Option String))
  | 0, _, _, _ => none
  | fuel + 1, times_waited, k, sol =>
    if pyFalsyStr sol = true ∧ times_waited < 3 then
      match get_anti_captcha_solution w k with
      | .error e => some (.error e)
      | .ok newSol => solve_poll_loop w fuel times_waited (k + 1) newSol
    else some (.ok sol)

/-- `solve_recaptcha` (lines 304-343): regex for site key and action (`None`
when absent); create the oracle task (`None` task id, falsy, gives up); poll;
on success read the hidden `captcha_token` input — `input_elem.get('value')`
raises `AttributeError` when the input element is absent. Outer `none` means
the poll loop diverged within the given fuel. -/
def solve_recaptcha (w : OracleWorld) (fuel : Nat) (pg : ParsedPage) :
    Option (Except PyErr (Option (String × Option String))) :=
  match pg.recaptchaParams with
  | none => some (.ok none)
  | some _ =>
    match create_anti_captcha_task w with
    | .error e => some (.error e)
    | .ok tid =>
      if pyFalsyIntOpt tid = true then some (.ok none)
      else
        match solve_poll_loop w fuel 0 0 none with
        | none => none
        | some (.error e) => some (.error e)
        | some (.ok sol) =>
          if pyFalsyStr sol = true then some (.ok none)
          else
            match sol with
            | none => some (.ok none)
            | some s =>
              match pg.captchaTokenInput with
              | none => some (.error .attributeError)
              | some tok => some (.ok (some (s, tok)))

/-- `has_next_page` (lines 346-381): needs the `sites_tbl_end` element and its
next `b` sibling; strips `,` and `.` from their texts, parses ints (Python
`int()` raises `ValueError` on garbage, uncaught), and returns
`cur_results_end_int < tot_results_int`. Returns `None` (here `.ok none`) when
either element is missing. -/
def has_next_page (pg : ParsedPage) : Except PyErr (Option Bool) :=
  match pg.sitesTblEnd with
  | none => .ok none
  | some curEnd =>
    match pg.totResults with
    | none => .ok none
    | some tot =>
      let clean := fun (s : String) =>
        String.mk (s.data.filter (fun c => ¬(c = ',' ∨ c = '.')))
      match pyInt (clean curEnd), pyInt (clean tot) with
      | .error e, _ => .error e
      | _, .error e => .error e
      | .ok curInt, .ok totInt => .ok (some (curInt < totInt))

/-- The exact response body accepted by `post_solution_and_update_cookies`. -/
def redirectScript : String :=
  "<script>window.location=window.location.href.split(\"#\")[0];</script>"

/-- `post_solution_and_update_cookies` (lines 383-411): POST through the same
Fetcher (so a 200 updates its jar first); accepted only when the body equals
the redirect script AND the `s2_uGoo` cookie is now in the jar. -/
def post_solution_and_update_cookies (raw : Except PyErr Response) (jar : Jar) :
    Bool × Jar :=
  match fetcher_request raw jar with
  | (none, jar1) => (false, jar1)
  | (some res, jar1) =>
    if res.text = redirectScript ∧ jarHasKey jar1 "s2_uGoo" = true
    then (true, jar1) else (false, jar1)

/-- `page_has_recaptcha` (lines 414-417). -/
def page_has_recaptcha (html : String) : Bool :=
  let lower := asciiLower html
  strIn "human verification" lower || strIn "human being" lower

/-- World one engine run (one proxy) interacts with: the k-th underlying HTTP
call made by the proxy-bound Fetcher, and the oracle world of the k-th
`solve_recaptcha` invocation. -/
structure EngineWorld where
  http : Nat → Except PyErr Response
  oracle : Nat → OracleWorld

/-- How one engine run ends: a Python return value (`some page` to rotate
proxy, `none` for "no more pages"), an uncaught exception, or divergence of
the captcha poll loop. -/
inductive EOutcome where
  | ret (next : Option Nat)
  | crash (e : PyErr)
  | diverge
deriving DecidableEq, Repr

/-- Observable result of one engine run. -/
structure EngineRes where
  outcome : EOutcome
  /-- The global `domains` set afterwards. -/
  doms : List String
  /-- Lines appended to the results file during the run. -/
  sink : List String
  /-- Successful `fetcher.get` page fetches (response received). -/
  gets : Nat
  /-- Underlying HTTP calls attempted by the Fetcher (GETs and POSTs). -/
  httpIdx : Nat
deriving DecidableEq, Repr

/-- Mutable state of the engine loop in
`do_some_work_until_finished_or_proxy_dead`. -/
structure EngineSt where
  pageNext : Nat
  numReq : Nat
  httpIdx : Nat
  solveIdx : Nat
  jar : Jar
  doms : List String
  sink : List String
  gets : Nat
deriving DecidableEq, Repr

/-- Outcome of the challenge block (lines 442-478) for one fetched page. -/
inductive ChallengeOut where
  /-- One of the `return page_next_up` exits inside the block. -/
  | rotate (gets httpIdx : Nat)
  | crashed (e : PyErr) (gets httpIdx : Nat)
  | diverged (gets httpIdx : Nat)
  /-- Proceed to parsing with this response (possibly the post-challenge
  re-fetch) and the updated counters. -/
  | proceed (res : Response) (jar : Jar) (numReq gets httpIdx solveIdx : Nat)
deriving Repr

/-- The challenge-detect / solve / resubmit / recheck block (lines 442-478),
entered with the response of the ordinary page fetch already in hand. -/
def challenge_phase (w : EngineWorld) (oFuel : Nat) (res : Response)
    (jar : Jar) (numReq httpIdx solveIdx gets : Nat) : ChallengeOut :=
  if page_has_recaptcha res.text then
    match solve_recaptcha (w.oracle solveIdx) oFuel res.page with
    | none => .diverged gets httpIdx
    | some (.error e) => .crashed e gets httpIdx
    | some (.ok none) => .rotate gets httpIdx
    | some (.ok (some _)) =>
      -- post the solution through the same fetcher (not counted in
      -- num_requests), then re-fetch the original URL
      match post_solution_and_update_cookies (w.http httpIdx) jar with
      | (false, _) => .rotate gets (httpIdx + 1)
      | (true, jar2) =>
        match fetcher_request (w.http (httpIdx + 1)) jar2 with
        | (none, _) => .rotate gets (httpIdx + 2)
        | (some res2, jar3) =>
          if page_has_recaptcha res2.text then .rotate (gets + 1) (httpIdx + 2)
          else .proceed res2 jar3 (numReq + 1) (gets + 1) (httpIdx + 2)
            (solveIdx + 1)
  else .proceed res jar numReq gets httpIdx solveIdx

/-- Lines 493-497: extract the `row_name` cell texts as a set, merge into the
global `domains` set, and append the page's whole set to the results file. -/
def process_page_records (doms sink : List String) (cells : List String) :
    List String × List String :=
  let pageDoms := (cells.map pyStrip).dedup
  (pageDoms.foldl (fun acc d => if d ∈ acc then acc else acc ++ [d]) doms,
   sink ++ pageDoms)

/-- The `while num_requests < MAX_REQUESTS_PER_IP` loop (lines 432-517).
`num_requests` grows by at least one per iteration, so `fuel = 20 - numReq`
iterations always suffice; the `fuel = 0` branch returns exactly what the
loop's exit (guard false) returns, and is reached only with `numReq ≥ 20`
when entered with `fuel ≥ 20 - numReq`. -/
def engine_loop (w : EngineWorld) (oFuel : Nat) :
    Nat → EngineSt → EngineRes
  | 0, s => ⟨.ret (some s.pageNext), s.doms, s.sink, s.gets, s.httpIdx⟩
  | fuel + 1, s =>
    if s.numReq < MAX_REQUESTS_PER_IP then
      match fetcher_request (w.http s.httpIdx) s.jar with
      | (none, _) =>
        -- `if not res: return page_next_up` (line 436)
        ⟨.ret (some s.pageNext), s.doms, s.sink, s.gets, s.httpIdx + 1⟩
      | (some res, jar1) =>
        match challenge_phase w oFuel res jar1 (s.numReq + 1) (s.httpIdx + 1)
            s.solveIdx (s.gets + 1) with
        | .rotate g h => ⟨.ret (some s.pageNext), s.doms, s.sink, g, h⟩
        | .crashed e g h => ⟨.crash e, s.doms, s.sink, g, h⟩
        | .diverged g h => ⟨.diverge, s.doms, s.sink, g, h⟩
        | .proceed res2 jar2 numReq2 gets2 httpIdx2 solveIdx2 =>
          match res2.page.table with
          | none =>
            -- table with domains not found: `return page_next_up` (line 491)
            ⟨.ret (some s.pageNext), s.doms, s.sink, gets2, httpIdx2⟩
          | some cells =>
            match process_page_records s.doms s.sink cells with
            | (doms1, sink1) =>
              match has_next_page res2.page with
              | .error e => ⟨.crash e, doms1, sink1, gets2, httpIdx2⟩
              | .ok none =>
                -- next page undeterminable: `return None` (line 506)
                ⟨.ret none, doms1, sink1, gets2, httpIdx2⟩
              | .ok (some false) =>
                -- all done: `return None` (line 512)
                ⟨.ret none, doms1, sink1, gets2, httpIdx2⟩
              | .ok (some true) =>
                engine_loop w oFuel fuel
                  { pageNext := s.pageNext + 1, numReq := numReq2,
                    httpIdx := httpIdx2, solveIdx := solveIdx2, jar := jar2,
                    doms := doms1, sink := sink1, gets := gets2 }
    else ⟨.ret (some s.pageNext), s.doms, s.sink, s.gets, s.httpIdx⟩

/-- One engine run on a verified proxy: fresh Fetcher (fresh empty jar),
`num_requests = 0`, starting cursor `page`. -/
def engine_run (w : EngineWorld) (oFuel : Nat) (page : Nat)
    (doms sink : List String) : EngineRes :=
  engine_loop w oFuel MAX_REQUESTS_PER_IP
    { pageNext := page, numReq := 0, httpIdx := 0, solveIdx := 0,
      jar := fetcher_init none, doms := doms, sink := sink, gets := 0 }

/-- World one `do_some_work_until_finished_or_proxy_dead` call sees. -/
structure WorkWorld where
  /-- Outcome of the IP-echo GET used by `proxy_is_working`. -/
  verifyRaw : Except PyErr Response
  engine : EngineWorld

/-- Observable result of one `do_some_work_until_finished_or_proxy_dead`. -/
structure WorkRes where
  outcome : EOutcome
  good : List String
  bad : List String
  doms : List String
  sink : List String
  gets : Nat
  /-- HTTP calls attempted on this proxy, verification included. -/
  httpAttempts : Nat
deriving DecidableEq, Repr

/-- `do_some_work_until_finished_or_proxy_dead` (lines 420-517). -/
def do_some_work (w : WorkWorld) (oFuel : Nat) (proxy : String) (page : Nat)
    (good bad doms sink : List String) : WorkRes :=
  match proxy_is_working w.verifyRaw proxy good bad with
  | (false, good1, bad1) =>
    ⟨.ret (some page), good1, bad1, doms, sink, 0, 1⟩
  | (true, good1, bad1) =>
    let er := engine_run w.engine oFuel page doms sink
    ⟨er.outcome, good1, bad1, er.doms, er.sink, er.gets, er.httpIdx + 1⟩

/-- `pick_proxy` (lines 223-234), with the calls to `random.choice` supplied
as an index sequence: at each step the drawn index is `choose fuel % length`,
the embedding of "some valid index of the remaining list" (the modulus is
what makes an arbitrary `Nat` sequence a valid-index sequence). The drawn
element is `pop`ped; the loop runs while the list is nonempty. -/
def pick_proxy_go (choose : Nat → Nat) : Nat → List String → List String
  | 0, _ => []
  | _ + 1, [] => []
  | fuel + 1, p :: ps =>
    let l := p :: ps
    let i := choose fuel % l.length
    l.getD i "" :: pick_proxy_go choose fuel (l.eraseIdx i)

/-- The full sequence of proxies `pick_proxy` yields for a candidate list. -/
def pick_proxy (choose : Nat → Nat) (proxies : List String) : List String :=
  pick_proxy_go choose proxies.length proxies

/-- Worlds for the whole run: one `WorkWorld` per drawn proxy. -/
structure RunWorld where
  perProxy : Nat → WorkWorld

/-- How `main` (lines 520-533) stops. -/
inductive DriverStop where
  /-- `if not page: break` — "No more pages. Done." -/
  | done
  /-- The `for ... else`: "No more proxies. Quitting at page p." -/
  | exhausted (page : Nat)
  | crash (e : PyErr)
  | diverge
deriving DecidableEq, Repr

/-- Observable result of the driver loop. -/
structure DriverRes where
  stop : DriverStop
  good : List String
  bad : List String
  doms : List String
  sink : List String
  proxiesTried : Nat
  httpAttempts : Nat
deriving DecidableEq, Repr

/-- The `for proxy in pick_proxy()` loop of `main`, over the already-drawn
proxy sequence. An engine crash propagates out of `main`; `if not page` treats
both `None` and `0` as "no more pages" (pages start at 1 and only grow, so `0`
never actually occurs). -/
def driver_loop (w : RunWorld) (oFuel : Nat) :
    List String → Nat → Nat → List String → List String → List String →
    List String → Nat → DriverRes
  | [], page, k, good, bad, doms, sink, attempts =>
    ⟨.exhausted page, good, bad, doms, sink, k, attempts⟩
  | proxy :: rest, page, k, good, bad, doms, sink, attempts =>
    let r := do_some_work (w.perProxy k) oFuel proxy page good bad doms sink
    let attempts1 := attempts + r.httpAttempts
    match r.outcome with
    | .crash e => ⟨.crash e, r.good, r.bad, r.doms, r.sink, k + 1, attempts1⟩
    | .diverge => ⟨.diverge, r.good, r.bad, r.doms, r.sink, k + 1, attempts1⟩
    | .ret none => ⟨.done, r.good, r.bad, r.doms, r.sink, k + 1, attempts1⟩
    | .ret (some p) =>
      if p = 0 then ⟨.done, r.good, r.bad, r.doms, r.sink, k + 1, attempts1⟩
      else driver_loop w oFuel rest p (k + 1) r.good r.bad r.doms r.sink
        attempts1

/-- `main` (lines 520-533): draw the proxy sequence, start at `START_PAGE`. -/
def main_run (w : RunWorld) (oFuel : Nat) (choose : Nat → Nat)
    (proxyFile : List String) : DriverRes :=
  driver_loop w oFuel (pick_proxy choose proxyFile) START_PAGE 0 [] [] [] [] 0

/-- Module load then `main` (lines 75 and 536-542): the
`os.environ['ANTI_CAPTCHA_KEY']` lookup happens at import time, before the
proxy file is read and before any HTTP call; an absent key raises `KeyError`
there. The Bool records whether the proxy file was read; the Nat counts HTTP
calls attempted. -/
def script_run (env : String → Option String) (w : RunWorld) (oFuel : Nat)
    (choose : Nat → Nat) (proxyFile : List String) :
    Except PyErr DriverRes × Bool × Nat :=
  match env "ANTI_CAPTCHA_KEY" with
  | none => (.error (.keyError "ANTI_CAPTCHA_KEY"), false, 0)
  | some _ =>
    let r := main_run w oFuel choose proxyFile
    (.ok r, true, r.httpAttempts)

/-! Concrete worlds used by the closed theorems below. -/

/-- A page with none of the queried elements. -/
def emptyParsed : ParsedPage := ⟨none, none, none, none, none⟩

/-- A challenge-free listing page: results table present, counter as given. -/
def listingPage (cells : List String) (curEnd tot : Option String) :
    Response :=
  { status := 200, text := "domain listing", url := "https://myip.ms/browse",
    setCookies := [],
    page := { table := some cells, sitesTblEnd := curEnd, totResults := tot,
              recaptchaParams := none, captchaTokenInput := none } }

/-- A listing page in the middle of the result set (`1,650` of `217,793`). -/
def hasMorePage : Response :=
  listingPage [" shop.example "] (some "1,650") (some "217,793")

/-- A challenge page: recaptcha markers, params and hidden token present. -/
def captchaPage : Response :=
  { status := 200, text := "Please complete Human Verification",
    url := "https://myip.ms/browse", setCookies := [],
    page := { table := none, sitesTblEnd := none, totResults := none,
              recaptchaParams := some ("SITEKEY1234567890", "submit"),
              captchaTokenInput := some (some "tok123") } }

/-- The response accepting a posted solution: redirect-script body plus the
`s2_uGoo` session cookie. -/
def acceptPost : Response :=
  { status := 200, text := redirectScript, url := "https://myip.ms/browse",
    setCookies := [("s2_uGoo", "abc")], page := emptyParsed }

/-- An oracle that returns a task id and a ready solution at the first poll. -/
def readyOracle : OracleWorld :=
  { createResp := .ok (200, .ok (some 7)),
    pollResp := fun _ => .ok (200, .ok (some "captcha-solution")) }

/-- An oracle that accepts the task but never has the solution ready: every
poll answers HTTP 200 whose JSON lacks the `solution` field (the `KeyError`
is caught and the poll returns `None`). -/
def neverReadyOracle : OracleWorld :=
  { createResp := .ok (200, .ok (some 1)),
    pollResp := fun _ => .ok (200, .ok none) }

/-- A page whose recaptcha params match but whose hidden `captcha_token`
input element is absent. -/
def noTokenCaptchaPage : ParsedPage :=
  { table := none, sitesTblEnd := none, totResults := none,
    recaptchaParams := some ("SITEKEY1234567890", "submit"),
    captchaTokenInput := none }

/-- HTTP traffic for the budget counterexample: 19 ordinary listing pages,
then a challenge page on the 20th fetch, the accepted POST, and an ordinary
page for the re-fetch. -/
def c4Http (k : Nat) : Except PyErr Response :=
  if k < 19 then .ok hasMorePage
  else if k = 19 then .ok captchaPage
  else if k = 20 then .ok acceptPost
  else .ok hasMorePage

def c4World : EngineWorld := { http := c4Http, oracle := fun _ => readyOracle }

/-- Two consecutive pages carrying the same single record. -/
def dupPage1 : Response := listingPage ["dup.example"] (some "50") (some "100")

def dupPage2 : Response :=
  listingPage ["dup.example"] (some "100") (some "100")

def c3World : EngineWorld :=
  { http := fun k => if k = 0 then .ok dupPage1 else .ok dupPage2,
    oracle := fun _ => readyOracle }

/-- A listing page whose pagination counter markup is missing entirely. -/
def noCounterPage : Response := listingPage ["a.example"] none none

def c6World : EngineWorld :=
  { http := fun _ => .ok noCounterPage, oracle := fun _ => readyOracle }

/-- The IP-echo endpoint reporting `ip`. -/
def echoOk (ip : String) : Response :=
  { status := 200, text := ip, url := "", setCookies := [],
    page := emptyParsed }

/-- A block/redirect page: HTTP 200 but no results table at all. -/
def noTablePage : Response :=
  { status := 200, text := "rate limited",
    url := "https://myip.ms/info/limitexcess", setCookies := [],
    page := emptyParsed }

/-- The final page of the result set (`100` of `100`). -/
def lastPage : Response := listingPage ["z.example"] (some "100") (some "100")

/-- Proxy world: verification succeeds, every page fetch lacks the table. -/
def workMissingTable : WorkWorld :=
  { verifyRaw := .ok (echoOk "1.2.3.4"),
    engine := { http := fun _ => .ok noTablePage,
                oracle := fun _ => readyOracle } }

/-- Proxy world: verification succeeds, first page is the last page. -/
def workLastPage : WorkWorld :=
  { verifyRaw := .ok (echoOk "5.6.7.8"),
    engine := { http := fun _ => .ok lastPage,
                oracle := fun _ => readyOracle } }

/-- Proxy world: verification succeeds, pages lack the pagination counter. -/
def workNoCounter : WorkWorld :=
  { verifyRaw := .ok (echoOk "1.2.3.4"),
    engine := { http := fun _ => .ok noCounterPage,
                oracle := fun _ => readyOracle } }

/-- Run world A: first proxy hits missing-table pages, second one finishes. -/
def runWorldA : RunWorld :=
  { perProxy := fun k => if k = 0 then workMissingTable else workLastPage }

/-- Run world B: first proxy hits a page with no pagination counter. -/
def runWorldB : RunWorld :=
  { perProxy := fun k => if k = 0 then workNoCounter else workLastPage }

def twoProxies : List String := ["1.2.3.4:8080", "5.6.7.8:3128"]

/-- Concatenation of a list of record sets (the lines the sink receives). -/
def concatAll : List (List String) → List String
  | [] => []
  | l :: ls => l ++ concatAll ls

/-- Folding the engine's per-page record step (`process_page_records`, lines
493-497) over the extracted cell lists of a run's pages, carrying the global
set and the sink. -/
def process_pages (doms sink : List String) :
    List (List String) → List String × List String
  | [] => (doms, sink)
  | cells :: rest =>
    match process_page_records doms sink cells with
    | (d1, s1) => process_pages d1 s1 rest

/-- A world whose every page fetch yields the same mid-result-set page. -/
def constListingWorld : EngineWorld :=
  { http := fun _ => .ok hasMorePage, oracle := fun _ => readyOracle }

/-- A page showing the last result (`217,793` of `217,793`). -/
def lastBigPage : Response :=
  listingPage ["x.example"] (some "217,793") (some "217,793")

/-- A non-200 response carrying cookies (which must not be merged). -/
def forbiddenResponse : Response :=
  { status := 403, text := "Forbidden", url := "", setCookies := [("x", "y")],
    page := emptyParsed }

/-- An oracle whose HTTP endpoint raises on every call. -/
def downOracle : OracleWorld :=
  { createResp := .error .requestException,
    pollResp := fun _ => .error .requestException }

/-! ## Helper lemmas -/

/-- Membership after batch-inserting records into the global set. -/
theorem mem_setInsertAll (new : List String) (doms : List String) (a : String) :
    (a ∈ new.foldl (fun acc d => if d ∈ acc then acc else acc ++ [d]) doms) ↔
      a ∈ doms ∨ a ∈ new := by
  induction new generalizing doms with
  | nil => simp
  | cons d rest ih =>
    simp only [List.foldl_cons]
    rw [ih]
    by_cases hd : d ∈ doms
    · simp only [if_pos hd, List.mem_cons]
      constructor
      · intro h; tauto
      · rintro (h | h | h)
        · tauto
        · subst h; tauto
        · tauto
    · simp only [if_neg hd, List.mem_append, List.mem_singleton, List.mem_cons]
      tauto

/-- Popping the i-th element in front of the remainder permutes the list. -/
theorem getD_cons_eraseIdx_perm :
    ∀ (l : List String) (i : Nat), i < l.length →
      (l.getD i "" :: l.eraseIdx i).Perm l := by
  intro l
  induction l with
  | nil => intro i h; simp at h
  | cons a t ih =>
    intro i h
    match i with
    | 0 => simp [List.getD]
    | Nat.succ j =>
      have hj : j < t.length := by simpa using h
      show (t.getD j "" :: a :: t.eraseIdx j).Perm (a :: t)
      exact (List.Perm.swap a (t.getD j "") (t.eraseIdx j)).trans
        ((ih j hj).cons a)

/-- With enough fuel, the drawing loop emits a permutation of the list. -/
theorem pick_proxy_go_perm (choose : Nat → Nat) :
    ∀ (fuel : Nat) (l : List String), l.length ≤ fuel →
      (pick_proxy_go choose fuel l).Perm l := by
  intro fuel
  induction fuel with
  | zero =>
    intro l h
    have : l = [] := List.eq_nil_of_length_eq_zero (Nat.le_zero.mp h)
    subst this
    simp [pick_proxy_go]
  | succ n ih =>
    intro l h
    match l with
    | [] => simp [pick_proxy_go]
    | p :: ps =>
      have hi : choose n % (p :: ps).length < (p :: ps).length :=
        Nat.mod_lt _ (by simp)
      have hlen :
          ((p :: ps).eraseIdx (choose n % (p :: ps).length)).length ≤ n := by
        have := List.length_eraseIdx_add_one hi
        omega
      exact ((ih _ hlen).cons _).trans (getD_cons_eraseIdx_perm (p :: ps) _ hi)

/-- Against `neverReadyOracle` the `solve_recaptcha` polling loop is still
running after any number of iterations: the loop condition never becomes
false because `times_waited` stays 0. -/
theorem solve_poll_loop_never_ready (fuel k : Nat) :
    solve_poll_loop neverReadyOracle fuel 0 k none = none := by
  induction fuel generalizing k with
  | zero => rfl
  | succ n ih =>
    have hg : get_anti_captcha_solution neverReadyOracle k = .ok none := rfl
    simp only [solve_poll_loop, hg, pyFalsyStr]
    rw [if_pos ⟨trivial, by omega⟩]
    exact ih (k + 1)

theorem hasMore_no_recaptcha : page_has_recaptcha hasMorePage.text = false := by
  decide

theorem hasMore_next : has_next_page hasMorePage.page = .ok (some true) := rfl

theorem fetcher_request_hasMore (jar : Jar) :
    fetcher_request (.ok hasMorePage) jar = (some hasMorePage, jar) := by
  simp [fetcher_request, hasMorePage, listingPage, dictUpdate]

theorem challenge_phase_no_captcha (w : EngineWorld) (oFuel : Nat)
    (res : Response) (jar : Jar) (numReq httpIdx solveIdx gets : Nat)
    (h : page_has_recaptcha res.text = false) :
    challenge_phase w oFuel res jar numReq httpIdx solveIdx gets =
      .proceed res jar numReq gets httpIdx solveIdx := by
  simp [challenge_phase, h]

/-- One challenge-free engine iteration on a mid-result-set page. -/
theorem engine_loop_step_hasMore (w : EngineWorld) (oFuel : Nat)
    (hw : ∀ k, w.http k = .ok hasMorePage) (fuel : Nat) (st : EngineSt)
    (h : st.numReq < MAX_REQUESTS_PER_IP) :
    engine_loop w oFuel (fuel + 1) st =
      engine_loop w oFuel fuel
        { pageNext := st.pageNext + 1, numReq := st.numReq + 1,
          httpIdx := st.httpIdx + 1, solveIdx := st.solveIdx, jar := st.jar,
          doms := (process_page_records st.doms st.sink [" shop.example "]).fst,
          sink := (process_page_records st.doms st.sink [" shop.example "]).snd,
          gets := st.gets + 1 } := by
  have e1 : fetcher_request (w.http st.httpIdx) st.jar =
      (some hasMorePage, st.jar) := by
    rw [hw]; exact fetcher_request_hasMore st.jar
  have e2 := challenge_phase_no_captcha w oFuel hasMorePage st.jar
    (st.numReq + 1) (st.httpIdx + 1) st.solveIdx (st.gets + 1)
    hasMore_no_recaptcha
  have e3 : hasMorePage.page.table = some [" shop.example "] := rfl
  simp only [engine_loop, e1, e2, e3, hasMore_next, if_pos h]

/-- On an all-`hasMore`, challenge-free world the engine does exactly one
successful fetch per remaining budget unit and exits with the cursor advanced
by the budget. -/
theorem engine_loop_hasMore_projections (w : EngineWorld) (oFuel : Nat)
    (hw : ∀ k, w.http k = .ok hasMorePage) :
    ∀ (fuel : Nat) (st : EngineSt), st.numReq + fuel = MAX_REQUESTS_PER_IP →
      (engine_loop w oFuel fuel st).outcome = .ret (some (st.pageNext + fuel))
      ∧ (engine_loop w oFuel fuel st).gets = st.gets + fuel := by
  intro fuel
  induction fuel with
  | zero => intro st h; exact ⟨rfl, rfl⟩
  | succ n ih =>
    intro st h
    have hlt : st.numReq < MAX_REQUESTS_PER_IP := by
      simp only [MAX_REQUESTS_PER_IP] at h ⊢; omega
    rw [engine_loop_step_hasMore w oFuel hw n st hlt]
    obtain ⟨o, g⟩ := ih
      { pageNext := st.pageNext + 1, numReq := st.numReq + 1,
        httpIdx := st.httpIdx + 1, solveIdx := st.solveIdx, jar := st.jar,
        doms := (process_page_records st.doms st.sink [" shop.example "]).fst,
        sink := (process_page_records st.doms st.sink [" shop.example "]).snd,
        gets := st.gets + 1 }
      (by show st.numReq + 1 + n = MAX_REQUESTS_PER_IP
          simp only [MAX_REQUESTS_PER_IP] at h ⊢; omega)
    constructor
    · rw [o]
      have : st.pageNext + 1 + n = st.pageNext + (n + 1) := by omega
      simp [this]
    · rw [g]
      simp; omega

/-! ## Claim theorems -/

/-- C1: the claim says the solution-polling step polls the oracle at most 3
times and returns `none` when exhausted, so the loop always terminates. The
code cannot do this: `times_waited` is never incremented inside the loop, so
against an oracle whose task is accepted but never ready, `solve_recaptcha`
is still inside the polling loop after any number `fuel` of iterations —
the loop never terminates and never gives up. -/
theorem solve_recaptcha_poll_never_terminates (fuel : Nat) :
    solve_recaptcha neverReadyOracle fuel captchaPage.page = none := by
  have hc : create_anti_captcha_task neverReadyOracle = .ok (some 1) := rfl
  simp [solve_recaptcha, captchaPage, hc, pyFalsyIntOpt,
        solve_poll_loop_never_ready fuel 0]

/-- C2 (counterexample): a proxy whose IP-echo response arrives but reports an
IP that is not a substring of the proxy address is appended to neither the
good nor the bad list, refuting "exactly one of the lists — never neither". -/
theorem mismatched_echo_in_neither_list :
    ¬ ("1.2.3.4:8080" ∈
        (proxy_is_working (.ok (echoOk "9.9.9.9")) "1.2.3.4:8080" [] []).snd.fst
      ∨ "1.2.3.4:8080" ∈
        (proxy_is_working (.ok (echoOk "9.9.9.9")) "1.2.3.4:8080" [] []).snd.snd) := by
  decide

/-- C2 (amended): `proxy_is_working` appends a tested address to at most one
verdict list — to the good list exactly when a response arrived whose text
occurs in the proxy string, to the bad list exactly when no response arrived,
and to neither list when a response arrived but its text did not match. -/
theorem proxy_is_working_verdict_cases (raw : Except PyErr Response)
    (p : String) (good bad : List String) :
    ((fetcher_request raw (fetcher_init none)).fst = none →
      proxy_is_working raw p good bad = (false, good, bad ++ [p]))
    ∧ (∀ r, (fetcher_request raw (fetcher_init none)).fst = some r →
        strIn r.text p = true →
        proxy_is_working raw p good bad = (true, good ++ [p], bad))
    ∧ (∀ r, (fetcher_request raw (fetcher_init none)).fst = some r →
        strIn r.text p = false →
        proxy_is_working raw p good bad = (false, good, bad)) := by
  refine ⟨fun h => ?_, fun r h ht => ?_, fun r h hf => ?_⟩
  · simp [proxy_is_working, h]
  · simp [proxy_is_working, h, ht]
  · simp [proxy_is_working, h, hf]

/-- C2 (witness): the three verdict cases at concrete inputs. -/
theorem proxy_is_working_verdict_cases_witness :
    proxy_is_working (.error .requestException) "1.2.3.4:8080" [] [] =
      (false, [], ["1.2.3.4:8080"])
    ∧ proxy_is_working (.ok (echoOk "1.2.3.4")) "1.2.3.4:8080" [] [] =
      (true, ["1.2.3.4:8080"], [])
    ∧ proxy_is_working (.ok (echoOk "9.9.9.9")) "1.2.3.4:8080" [] [] =
      (false, [], []) :=
  ⟨(proxy_is_working_verdict_cases (.error .requestException) "1.2.3.4:8080"
      [] []).1 rfl,
   (proxy_is_working_verdict_cases (.ok (echoOk "1.2.3.4")) "1.2.3.4:8080"
      [] []).2.1 (echoOk "1.2.3.4") rfl (by decide),
   (proxy_is_working_verdict_cases (.ok (echoOk "9.9.9.9")) "1.2.3.4:8080"
      [] []).2.2 (echoOk "9.9.9.9") rfl (by decide)⟩

/-- C3 (counterexample): a run whose second page repeats the one record of the
first page: the global set stays `["dup.example"]`, yet the sink receives the
record a second time — re-processing already-seen records does append new
lines, refuting "a retry never duplicates entries in the sink". -/
theorem repeat_page_duplicates_sink :
    (engine_run c3World 3 1 [] []).doms = ["dup.example"]
    ∧ (engine_run c3World 3 1 [] []).sink = ["dup.example", "dup.example"] := by
  constructor
  · decide
  · decide

/-- C3 (amended): after processing any sequence of pages the global record set
is exactly the initial set united with every page's extracted (stripped,
deduplicated) record set; but the sink receives each page's full extracted
set unconditionally — the concatenation of all per-page sets — so records of
a re-processed page are appended to the sink again. -/
theorem global_union_sink_concat (pages : List (List String))
    (doms0 sink0 : List String) :
    (∀ a, a ∈ (process_pages doms0 sink0 pages).fst ↔
        a ∈ doms0 ∨ ∃ cs, cs ∈ pages ∧ a ∈ (cs.map pyStrip).dedup)
    ∧ (process_pages doms0 sink0 pages).snd =
        sink0 ++ concatAll (pages.map (fun cs => (cs.map pyStrip).dedup)) := by
  induction pages generalizing doms0 sink0 with
  | nil => simp [process_pages, concatAll]
  | cons cells rest ih =>
    constructor
    · intro a
      simp only [process_pages, process_page_records]
      rw [(ih _ _).1 a, mem_setInsertAll]
      simp only [List.mem_cons]
      constructor
      · rintro ((h | h) | ⟨cs, hcs, hmem⟩)
        · tauto
        · exact Or.inr ⟨cells, Or.inl rfl, h⟩
        · exact Or.inr ⟨cs, Or.inr hcs, hmem⟩
      · rintro (h | ⟨cs, hcs | hcs, hmem⟩)
        · tauto
        · subst hcs; tauto
        · exact Or.inr ⟨cs, hcs, hmem⟩
    · simp only [process_pages, process_page_records]
      rw [(ih _ _).2]
      simp [concatAll, List.append_assoc]

/-- C4 (counterexample): nineteen ordinary pages followed by a challenge on
the 20th fetch: the solved challenge triggers a re-fetch, so the engine
performs a 21st successful page fetch after the 20th — refuting "after
exactly 20 successful page fetches the engine issues no further requests". -/
theorem challenge_on_20th_fetch_makes_21st_request :
    (engine_run c4World 3 1 [] []).gets = 21
    ∧ (engine_run c4World 3 1 [] []).outcome = .ret (some 21) := by
  constructor
  · decide
  · decide

/-- C4 (amended): the budget is checked only at the top of each loop
iteration, so on a challenge-free run the engine performs exactly 20
successful page fetches and returns control with the cursor advanced by 20
(a challenge on the 20th fetch can add one post-challenge re-fetch,
making 21, as the counterexample shows). -/
theorem engine_budget_no_challenge (w : EngineWorld) (oFuel page : Nat)
    (doms sink : List String) (hw : ∀ k, w.http k = .ok hasMorePage) :
    (engine_run w oFuel page doms sink).outcome =
      .ret (some (page + MAX_REQUESTS_PER_IP))
    ∧ (engine_run w oFuel page doms sink).gets = MAX_REQUESTS_PER_IP := by
  have := engine_loop_hasMore_projections w oFuel hw MAX_REQUESTS_PER_IP
    { pageNext := page, numReq := 0, httpIdx := 0, solveIdx := 0,
      jar := fetcher_init none, doms := doms, sink := sink, gets := 0 }
    (by simp)
  simpa [engine_run] using this

/-- C4 (witness): the challenge-free budget bound at a concrete world. -/
theorem engine_budget_no_challenge_witness :
    (engine_run constListingWorld 3 1 [] []).outcome =
      .ret (some (1 + MAX_REQUESTS_PER_IP))
    ∧ (engine_run constListingWorld 3 1 [] []).gets = MAX_REQUESTS_PER_IP :=
  engine_budget_no_challenge constListingWorld 3 1 [] [] (fun _ => rfl)

/-- C5 (counterexample): a fetched page lacking the results table is NOT
terminal for the run: the engine returns the current cursor and the driver
rotates to the second proxy (both proxies are tried), refuting "the driver
stops entirely rather than rotating to the next proxy". -/
theorem missing_table_rotates_proxy :
    (engine_run workMissingTable.engine 3 1 [] []).outcome = .ret (some 1)
    ∧ (main_run runWorldA 3 (fun _ => 0) twoProxies).proxiesTried = 2
    ∧ (main_run runWorldA 3 (fun _ => 0) twoProxies).stop = .done := by
  refine ⟨by decide, by decide, by decide⟩

/-- C5 (amended): only missing pagination markers are terminal for the whole
run — the engine signals completion (`ret none`) and the driver stops after
the first proxy with a second proxy still available; a missing results table
is proxy-scoped — the engine returns the current cursor and the driver
rotates to the next proxy. -/
theorem pagination_anomaly_terminal_table_missing_rotates :
    (engine_run workNoCounter.engine 3 1 [] []).outcome = .ret none
    ∧ (main_run runWorldB 3 (fun _ => 0) twoProxies).proxiesTried = 1
    ∧ (engine_run workMissingTable.engine 3 1 [] []).outcome = .ret (some 1)
    ∧ (main_run runWorldA 3 (fun _ => 0) twoProxies).proxiesTried = 2 := by
  refine ⟨by decide, by decide, by decide, by decide⟩

/-- C6: the pagination decision at the three specified points — counter
`1,650` of `217,793` decides hasMore, `217,793` of `217,793` decides
exhausted, and missing counter markup decides indeterminate, upon which the
engine transitions to Done (`ret none`) and the driver treats the run as
complete. -/
theorem pagination_decision_points :
    has_next_page hasMorePage.page = .ok (some true)
    ∧ has_next_page lastBigPage.page = .ok (some false)
    ∧ has_next_page noCounterPage.page = .ok none
    ∧ (engine_run c6World 3 1 [] []).outcome = .ret none
    ∧ (main_run runWorldB 3 (fun _ => 0) twoProxies).stop = .done := by
  refine ⟨rfl, rfl, rfl, by decide, by decide⟩

/-- C7: a Session's cookie jar is left unchanged on a transport error and on
any non-200 status, is merged with the response's cookies exactly on status
200, and a Session constructed without a cookies argument (as both
constructions in the script are) starts with its own fresh empty jar. -/
theorem cookies_updated_only_on_200 (raw : Except PyErr Response) (jar : Jar) :
    (∀ e, raw = .error e → (fetcher_request raw jar).snd = jar)
    ∧ (∀ r, raw = .ok r → r.status ≠ 200 → (fetcher_request raw jar).snd = jar)
    ∧ (∀ r, raw = .ok r → r.status = 200 →
        (fetcher_request raw jar).snd = dictUpdate jar r.setCookies)
    ∧ fetcher_init none = [] := by
  refine ⟨?_, ?_, ?_, rfl⟩
  · rintro e rfl; rfl
  · rintro r rfl h; simp [fetcher_request, h]
  · rintro r rfl h; simp [fetcher_request, h]

/-- C7 (witness): the jar cases at concrete inputs. -/
theorem cookies_updated_only_on_200_witness :
    (fetcher_request (.error .requestException) [("sid", "1")]).snd = [("sid", "1")]
    ∧ (fetcher_request (.ok forbiddenResponse) [("sid", "1")]).snd = [("sid", "1")]
    ∧ (fetcher_request (.ok acceptPost) [("sid", "1")]).snd =
        dictUpdate [("sid", "1")] acceptPost.setCookies
    ∧ fetcher_init none = [] :=
  ⟨(cookies_updated_only_on_200 (.error .requestException) [("sid", "1")]).1
      .requestException rfl,
   (cookies_updated_only_on_200 (.ok forbiddenResponse) [("sid", "1")]).2.1
      forbiddenResponse rfl (by decide),
   (cookies_updated_only_on_200 (.ok acceptPost) [("sid", "1")]).2.2.1
      acceptPost rfl rfl,
   (cookies_updated_only_on_200 (.error .requestException) [("sid", "1")]).2.2.2⟩

/-- C8 (counterexample): `solve_recaptcha` raises `AttributeError` to its
caller when the page's hidden `captcha_token` input is absent (the script
calls `.get('value')` on the result of `find` without a `None` check), even
though the oracle solved the challenge — refuting "no component-level
function ever raises an exception to its caller". -/
theorem solve_recaptcha_raises_attribute_error :
    solve_recaptcha readyOracle 3 noTokenCaptchaPage =
      some (.error .attributeError) := rfl

/-- C8 (amended): the Session's get/post absorb every raised exception and
return `none`, but the oracle-client calls are outside any handler: a
transport error raised by the createTask or getTaskResult POST propagates to
the caller unchanged. -/
theorem session_catches_oracle_raises (e : PyErr) (jar : Jar)
    (w : OracleWorld) :
    fetcher_request (.error e) jar = (none, jar)
    ∧ (w.createResp = .error e → create_anti_captcha_task w = .error e)
    ∧ (∀ k, w.pollResp k = .error e →
        get_anti_captcha_solution w k = .error e) := by
  refine ⟨rfl, fun h => ?_, fun k h => ?_⟩
  · simp [create_anti_captcha_task, h]
  · simp [get_anti_captcha_solution, h]

/-- C8 (witness): absorb vs propagate at a concrete failing oracle. -/
theorem session_catches_oracle_raises_witness :
    fetcher_request (.error .requestException) [] = (none, [])
    ∧ create_anti_captcha_task downOracle = .error .requestException
    ∧ get_anti_captcha_solution downOracle 0 = .error .requestException :=
  ⟨(session_catches_oracle_raises .requestException [] downOracle).1,
   (session_catches_oracle_raises .requestException [] downOracle).2.1 rfl,
   (session_catches_oracle_raises .requestException [] downOracle).2.2 0 rfl⟩

/-- C9 (counterexample): when the loaded candidate list contains the same
address twice, `pick_proxy` yields that address twice — refuting "each proxy
address from the loaded candidate list is returned at most once". -/
theorem pick_proxy_duplicate_candidate_drawn_twice :
    1 < (pick_proxy (fun _ => 0) ["1.1.1.1:80", "1.1.1.1:80"]).count
      "1.1.1.1:80" := by
  decide

/-- C9 (amended): for every index-choice sequence the sequence of proxies
yielded by `pick_proxy` is a permutation of the loaded candidate list (each
list entry drawn exactly once, iteration stopping at exhaustion); hence when
the loaded candidates are pairwise distinct, each address is returned at most
once. -/
theorem pick_proxy_yields_permutation (choose : Nat → Nat) (ps : List String) :
    (pick_proxy choose ps).Perm ps
    ∧ (ps.Nodup → ∀ a, (pick_proxy choose ps).count a ≤ 1) := by
  have hp := pick_proxy_go_perm choose ps.length ps (Nat.le_refl _)
  refine ⟨hp, fun hnd a => ?_⟩
  have hn : (pick_proxy choose ps).Nodup := hp.nodup_iff.mpr hnd
  exact List.nodup_iff_count_le_one.mp hn a

/-- C9 (witness): permutation and at-most-once at a concrete distinct list. -/
theorem pick_proxy_yields_permutation_witness :
    (pick_proxy (fun _ => 0) ["1.1.1.1:80", "2.2.2.2:80"]).Perm
      ["1.1.1.1:80", "2.2.2.2:80"]
    ∧ (∀ a, (pick_proxy (fun _ => 0) ["1.1.1.1:80", "2.2.2.2:80"]).count a ≤ 1) :=
  ⟨(pick_proxy_yields_permutation (fun _ => 0) ["1.1.1.1:80", "2.2.2.2:80"]).1,
   (pick_proxy_yields_permutation (fun _ => 0) ["1.1.1.1:80", "2.2.2.2:80"]).2
     (by decide)⟩

/-- C10: when the `ANTI_CAPTCHA_KEY` environment variable is unset, the
script fails with a `KeyError` at module load: the proxy list is never read
and zero HTTP calls are attempted. -/
theorem missing_key_fails_before_any_work (env : String → Option String)
    (w : RunWorld) (oFuel : Nat) (choose : Nat → Nat) (file : List String)
    (h : env "ANTI_CAPTCHA_KEY" = none) :
    script_run env w oFuel choose file =
      (.error (.keyError "ANTI_CAPTCHA_KEY"), false, 0) := by
  simp [script_run, h]

/-- C10 (witness): the module-load failure at a concrete empty environment. -/
theorem missing_key_fails_before_any_work_witness :
    script_run (fun _ => none) runWorldA 3 (fun _ => 0) twoProxies =
      (.error (.keyError "ANTI_CAPTCHA_KEY"), false, 0) :=
  missing_key_fails_before_any_work (fun _ => none) runWorldA 3 (fun _ => 0)
    twoProxies rfl
